import Mathlib

/-!
Shallow embedding of the `user_api_project` core (FastAPI user-management
backend) and verification of its specification claims.

Modelling conventions:
* Python strings are lists of Unicode codepoints (`Str := List Nat`); the
  ASCII fragments of `str.lower()` / `str.strip()` are modelled (the values
  these operations touch — emails, ids, passwords accepted by the
  validators — are ASCII).
* Wall-clock time is an explicit `Nat` parameter threaded into every
  operation that reads `datetime.utcnow()`.
* The MongoDB collection is a `List User` (`Store`), in insertion order;
  `find_one` is `List.find?`, `skip/limit` are `drop/take`.
* Randomness (uuid generation, bcrypt salt) is passed in explicitly.
* Raising an exception is modelled by returning `.error e`; stateful use
  cases return the resulting store next to the outcome, so "the store was
  not modified" is an equation on the second component.
-/

namespace UserApi

/-- Python strings as lists of Unicode codepoints. -/
abbrev Str := List Nat

/-- ASCII whitespace, the fragment of `str.strip()`'s whitespace class that
the modelled values can contain (space, `\t`, `\n`, `\v`, `\f`, `\r`). -/
def isSpace (c : Nat) : Bool := decide (c = 32 ∨ (9 ≤ c ∧ c ≤ 13))

/-- `A`–`Z`. -/
def isUpper (c : Nat) : Bool := decide (65 ≤ c ∧ c ≤ 90)

/-- `a`–`z`. -/
def isLower (c : Nat) : Bool := decide (97 ≤ c ∧ c ≤ 122)

/-- ASCII letter. -/
def isAlpha (c : Nat) : Bool := isUpper c || isLower c

/-- `0`–`9`. -/
def isDigit (c : Nat) : Bool := decide (48 ≤ c ∧ c ≤ 57)

/-- Lower-casing of one codepoint (ASCII fragment of Python `str.lower()`). -/
def lowerChar (c : Nat) : Nat := if 65 ≤ c ∧ c ≤ 90 then c + 32 else c

/-- Python `str.lower()`. -/
def strLower (s : Str) : Str := s.map lowerChar

/-- Python `str.strip()`: drop leading and trailing whitespace. -/
def strStrip (s : Str) : Str :=
  ((s.dropWhile isSpace).reverse.dropWhile isSpace).reverse

/-- `email.lower().strip()`, the normalization applied throughout the code. -/
def normalizeEmail (s : Str) : Str := strStrip (strLower s)

/-- Python truthiness test `not s or not s.strip()` used for required string
arguments (`user_id`, `requesting_user_id`, `email`, `password`). -/
def isBlank (s : Str) : Bool := s.isEmpty || (strStrip s).isEmpty

/-- Python truthiness of an `Optional[str]`: `None` and `""` are falsy. -/
def truthy (o : Option Str) : Bool :=
  match o with
  | none => false
  | some s => !s.isEmpty

/-! ### `app/core/utils.py` — `ValidationUtils` -/

/-- Characters allowed in the local part of the e-mail regex
`[a-zA-Z0-9._%+-]`. -/
def localChar (c : Nat) : Bool :=
  isAlpha c || isDigit c || decide (c = 46 ∨ c = 95 ∨ c = 37 ∨ c = 43 ∨ c = 45)

/-- Characters allowed in the domain part of the e-mail regex
`[a-zA-Z0-9.-]`. -/
def domainChar (c : Nat) : Bool :=
  isAlpha c || isDigit c || decide (c = 46 ∨ c = 45)

/-- `ValidationUtils.is_valid_email`: full match against
`^[a-zA-Z0-9._%+-]+@[a-zA-Z0-9.-]+\.[a-zA-Z]{2,}$`.  Since the local and
domain classes exclude `@` and the top-level-domain class excludes `.`,
the regex is equivalent to: split at the first `@` (codepoint 64), the
part before is a nonempty run of local characters; the part after splits
at its last `.` (codepoint 46) into a nonempty run of domain characters
and a trailing run of at least two letters. -/
def is_valid_email (s : Str) : Bool :=
  let localPart := s.takeWhile (fun c => !(c == 64))
  match s.dropWhile (fun c => !(c == 64)) with
  | [] => false
  | _ :: domain =>
    let tld := (domain.reverse.takeWhile (fun c => !(c == 46))).reverse
    let beforeDot := (domain.reverse.dropWhile (fun c => !(c == 46))).reverse
    !localPart.isEmpty && localPart.all localChar &&
    !beforeDot.isEmpty && !beforeDot.dropLast.isEmpty &&
    beforeDot.dropLast.all domainChar &&
    tld.all isAlpha && decide (2 ≤ tld.length)

/-- `ValidationUtils.is_valid_password`: nonempty and length in `[6, 128]`. -/
def is_valid_password (p : Str) : Bool :=
  if p.isEmpty then false else decide (6 ≤ p.length ∧ p.length ≤ 128)

/-! ### `app/domain/user/user_entity.py` — the `User` entity -/

/-- The `User` entity: id, normalized email, password hash, active flag,
timestamps (modelled as `Nat`). -/
structure User where
  id : Str
  email : Str
  password_hash : Str
  is_active : Bool
  created_at : Nat
  updated_at : Nat
deriving DecidableEq, Repr

/-- `User.deactivate`: set `is_active = False` and refresh `updated_at`. -/
def User.deactivate (u : User) (now : Nat) : User :=
  { u with is_active := false, updated_at := now }

/-- `User.activate`: set `is_active = True` and refresh `updated_at`. -/
def User.activate (u : User) (now : Nat) : User :=
  { u with is_active := true, updated_at := now }

/-- Modelled from the spec: `User.update_email` is called by
`UpdateUserUseCase._update_user_email` but is missing from the revision of
`user_entity.py` under `src/`; per §3 ("updated-at advances on every
mutation (email change, password change, activation toggle)") and §4.8
("apply. ... Each applied field bumps updated-at") it assigns the new
email and refreshes `updated_at`, like the `deactivate`/`activate`
mutators that are present. -/
def User.update_email (u : User) (e : Str) (now : Nat) : User :=
  { u with email := e, updated_at := now }

/-- Modelled from the spec: `User.update_password_hash` is called by
`UpdateUserUseCase._update_user_password` but is missing from the revision
of `user_entity.py` under `src/`; per §3 and §4.8 it assigns the new
password hash and refreshes `updated_at`. -/
def User.update_password_hash (u : User) (h : Str) (now : Nat) : User :=
  { u with password_hash := h, updated_at := now }

/-! ### `app/infrastructure/auth/password_hashing.py` — `PasswordHasher`

bcrypt is external; it is modelled as an ideal salted one-way function:
the digest is an injective encoding `'$' ++ salt ++ '$' ++ plaintext`
(codepoint 36 = `$`), which captures exactly the properties the library
guarantees (the salt is recoverable from the stored hash, and distinct
plaintexts give distinct digests under the same salt).  bcrypt salts do
not contain `$`; that is a hypothesis where it matters. -/

/-- Ideal model of `bcrypt.hashpw(password, salt)`. -/
def bhash (salt p : Str) : Str := 36 :: salt ++ 36 :: p

/-- The salt part bcrypt reads back from a stored hash string. -/
def extractSalt (h : Str) : Str :=
  match h with
  | 36 :: rest => rest.takeWhile (fun c => !(c == 36))
  | _ => []

/-- `bcrypt.checkpw(password, hashed)`: re-hash with the salt taken from
`hashed` and compare. -/
def checkpw (p h : Str) : Bool := bhash (extractSalt h) p == h

/-- `PasswordHasher.hash_password`: raises `ValueError` on an empty
password (modelled as `none`), otherwise hashes with a fresh salt (the
salt is the explicit randomness parameter). -/
def hash_password (salt p : Str) : Option Str :=
  if p.isEmpty then none else some (bhash salt p)

/-- `PasswordHasher.verify_password`: `False` (never an exception) when the
password or stored hash is empty or malformed, otherwise `checkpw`. -/
def verify_password (p h : Str) : Bool :=
  if p.isEmpty || h.isEmpty then false else checkpw p h

/-! ### `app/infrastructure/auth/jwt_handler.py` — `JWTHandler`

PyJWT is external; tokens are modelled as either unparseable strings
(`malformed`) or a payload signed with a key; `jwt.decode` succeeds
exactly when the signing key equals the server secret, raising
`ExpiredSignatureError` when the `exp` claim is in the past and
`InvalidTokenError` otherwise.  The server secret, the token lifetime and
every `datetime.utcnow()` reading are explicit parameters. -/

/-- JWT claim set produced by `create_access_token`.  `user_id` is
`Option` because `payload.get("user_id")` can be absent from a foreign
(but validly signed) token. -/
structure Payload where
  user_id : Option Str
  email : Str
  exp : Nat
  iat : Nat
  typ : String
deriving DecidableEq, Repr

/-- A bearer token string: either garbage or a signed claim set. -/
inductive Token where
  | malformed
  | signed (payload : Payload) (key : Str)
deriving DecidableEq, Repr

/-- Outcome of `jwt.decode`: payload, `ExpiredSignatureError`, or
`InvalidTokenError`. -/
inductive DecodeResult where
  | ok (p : Payload)
  | expiredSignature
  | invalidToken
deriving DecidableEq, Repr

/-- `jwt.decode(token, secret, algorithms=[...])` at time `now`. -/
def jwtDecode (t : Token) (secret : Str) (now : Nat) : DecodeResult :=
  match t with
  | .malformed => .invalidToken
  | .signed p key =>
    if key ≠ secret then .invalidToken
    else if p.exp ≤ now then .expiredSignature
    else .ok p

/-- `JWTHandler.create_access_token(user_id, email)`: payload
`{user_id, email, exp = now + expiration, iat = now, type = "access"}`
signed with the server secret.  `ttlMin` is
`settings.JWT_EXPIRATION_TIME_MINUTES` (time is counted in seconds). -/
def create_access_token (user_id email : Str) (secret : Str) (ttlMin now : Nat) :
    Token :=
  .signed ⟨some user_id, email, now + 60 * ttlMin, now, "access"⟩ secret

/-- `JWTHandler.verify_token`: decode, check the `type == "access"`
purpose tag, and return `none` on every failure (both decode exceptions
are caught). -/
def verify_token (t : Token) (secret : Str) (now : Nat) : Option Payload :=
  match jwtDecode t secret now with
  | .ok p => if p.typ ≠ "access" then none else some p
  | .expiredSignature => none
  | .invalidToken => none

/-! ### `app/infrastructure/db/mongo_client.py` + `user_model.py`

The users collection is a list in insertion order.  `find_one({"id": v})`
/ `find_one({"email": v})` return the first match; `replace_one` and
`delete_one` affect the first match; `skip`/`limit` are `drop`/`take`. -/

/-- The MongoDB `users` collection. -/
abbrev Store := List User

/-- `MongoClient.get_user_by_id` / `UserModel.get_by_id`. -/
def get_user_by_id (s : Store) (uid : Str) : Option User :=
  s.find? (fun u => u.id == uid)

/-- `MongoClient.get_user_by_email` / `UserModel.get_by_email`: the query
email is normalized (`email.lower().strip()`) before the lookup. -/
def get_user_by_email (s : Store) (e : Str) : Option User :=
  s.find? (fun u => u.email == normalizeEmail e)

/-- `MongoClient.get_all_users` / `UserModel.get_all`. -/
def get_all (s : Store) (skip limit : Nat) : List User :=
  (s.drop skip).take limit

/-- Replace the first document whose id matches (`replace_one`). -/
def replaceFirstById : Store → Str → User → Store
  | [], _, _ => []
  | x :: xs, i, u => if x.id == i then u :: xs else x :: replaceFirstById xs i u

/-- Remove the first document whose id matches (`delete_one`); the flag is
`deleted_count > 0`. -/
def removeFirstById : Store → Str → Store × Bool
  | [], _ => ([], false)
  | x :: xs, i =>
    if x.id == i then (xs, true)
    else
      let r := removeFirstById xs i
      (x :: r.1, r.2)

/-! ### `app/core/exceptions.py` — the domain exception taxonomy

Each constructor is one exception class actually raised by the modelled
code (the fixed message of `InvalidCredentialsException` is
"Email o contraseña incorrectos" for every raise site, so the constructor
carries no data).  `valueErr` is a plain Python `ValueError` with its
message, as raised by `DeleteUserUseCase` and `ListUsersUseCase`. -/
inductive Err where
  | validation (field : String)
  | invalidCredentials
  | userInactive (uid : Str)
  | userNotFound (uid : Str)
  | authorization (msg : String)
  | conflictUserExists (email : Str)
  | conflictEmailInUse (email : Str)
  | businessRule (rule : String)
  | infrastructure
  | valueErr (msg : String)
deriving DecidableEq, Repr

/-- Python `pat in s` on lists of characters. -/
def containsAux (pat : List Char) : List Char → Bool
  | [] => pat.isEmpty
  | c :: rest => pat.isPrefixOf (c :: rest) || containsAux pat rest

/-- Python `str.lower()` of one character (ASCII fragment), for the
route-level message inspection. -/
def pyCharLower (c : Char) : Char :=
  if 65 ≤ c.toNat ∧ c.toNat ≤ 90 then Char.ofNat (c.toNat + 32) else c

/-- Python `pat in s` on strings. -/
def pyIn (pat s : String) : Bool := containsAux pat.toList s.toList

/-- Python `pat in s.lower()`. -/
def pyInLower (pat s : String) : Bool :=
  containsAux pat.toList (s.toList.map pyCharLower)

/-- The `except ValueError` branches shared by the `/users` routes
(`user_routes.py`): a message containing "no encontrado"/"not found" maps
to 404, one containing "permisos"/"permission" maps to 403, anything else
to 400 (after `str(e).lower()`). -/
def user_route_value_error_status (msg : String) : Nat :=
  if pyInLower "no encontrado" msg || pyInLower "not found" msg then 404
  else if pyInLower "permisos" msg || pyInLower "permission" msg then 403
  else 400

/-- HTTP status assigned to each domain exception class by the
centralized handlers (`app/core/exception_handlers.py`,
`EXCEPTION_HANDLERS`): ValidationException 400, AuthenticationException
401, AuthorizationException 403, NotFoundException 404, Conflict 409,
BusinessRuleException (and its subclass UserInactiveException) 422,
InfrastructureException 500; a plain `ValueError` reaches the per-route
handler instead. -/
def handler_status : Err → Nat
  | .validation _ => 400
  | .invalidCredentials => 401
  | .userInactive _ => 422
  | .userNotFound _ => 404
  | .authorization _ => 403
  | .conflictUserExists _ => 409
  | .conflictEmailInUse _ => 409
  | .businessRule _ => 422
  | .infrastructure => 500
  | .valueErr msg => user_route_value_error_status msg

/-- Whether an error belongs to the `BusinessRuleException` class family of
`app/core/exceptions.py` (`BusinessRuleException` itself and its subclass
`UserInactiveException`).  A plain `ValueError` does not. -/
def isBusinessRuleClass : Err → Bool
  | .businessRule _ => true
  | .userInactive _ => true
  | _ => false

/-! ### `app/core/security.py` — the Security Gate -/

/-- The caller-visible shape of an `HTTPException` raised by
`SecurityService.get_current_user`: status code, `detail` string, and
whether the `WWW-Authenticate: Bearer` header is attached. -/
structure HttpErr where
  status : Nat
  detail : String
  wwwAuth : Bool
deriving DecidableEq, Repr

/-- The shared `credentials_exception` object. -/
def credentials_exception : HttpErr :=
  ⟨401, "Could not validate credentials", true⟩

/-- `SecurityService.get_current_user`: verify the token, read
`payload.get("user_id")`, resolve the user, require it active.  The first
three failures raise the shared `credentials_exception`; an inactive user
raises a distinct 401 with detail "Inactive user" and no
`WWW-Authenticate` header. -/
def get_current_user (s : Store) (t : Token) (secret : Str) (now : Nat) :
    Except HttpErr User :=
  match verify_token t secret now with
  | none => .error credentials_exception
  | some payload =>
    match payload.user_id with
    | none => .error credentials_exception
    | some uid =>
      match get_user_by_id s uid with
      | none => .error credentials_exception
      | some u =>
        if !u.is_active then .error ⟨401, "Inactive user", false⟩
        else .ok u

/-! ### Repository write operations (`UserModel` over `MongoClient`) -/

/-- `MongoClient.update_user` then `UserModel.update`: refresh
`updated_at` to the database-side `utcnow`, `replace_one({"id": user.id})`;
`modified_count > 0` requires a matching document that actually changes.
`UserModel.update` raises `NotFoundException` on `success == False`, but
its blanket `except Exception` clause rethrows everything (including that
`NotFoundException`) as `InfrastructureException`. -/
def um_update (s : Store) (u : User) (now : Nat) : Except Err User × Store :=
  let u' := { u with updated_at := now }
  match s.find? (fun x => x.id == u.id) with
  | none => (.error .infrastructure, s)
  | some x =>
    if x = u' then (.error .infrastructure, s)
    else (.ok u', replaceFirstById s u.id u')

/-- `UserModel.delete`: `delete_one({"id": user_id})`;
`NotFoundException` when nothing was deleted (this one is re-raised
as-is). -/
def um_delete (s : Store) (uid : Str) : Except Err Unit × Store :=
  let r := removeFirstById s uid
  if r.2 then (.ok (), r.1) else (.error (.userNotFound uid), s)

/-- `UserModel.create`: advisory duplicate-email lookup (raising
`ConflictException`, modelled by the same `conflictUserExists` payload the
use case produces), then `insert_one`. -/
def um_create (s : Store) (u : User) : Except Err Unit × Store :=
  match get_user_by_email s u.email with
  | some _ => (.error (.conflictUserExists u.email), s)
  | none => (.ok (), s ++ [u])

/-! ### `app/use_cases/user/create_user.py` — `CreateUserUseCase` -/

/-- `CreateUserUseCase.execute(email, password)`.  `salt` is the bcrypt
randomness, `newId` the generated uuid, `now` the creation timestamp.
The final `try/except Exception` around `user_model.create` rethrows
any repository failure as `InfrastructureException`. -/
def create_user_execute (s : Store) (email password : Str) (salt newId : Str)
    (now : Nat) : Except Err User × Store :=
  if isBlank email then (.error (.validation "email"), s)
  else if isBlank password then (.error (.validation "password"), s)
  else if !is_valid_email email then (.error (.validation "email"), s)
  else if !is_valid_password password then (.error (.validation "password"), s)
  else
    let em := normalizeEmail email
    match get_user_by_email s em with
    | some _ => (.error (.conflictUserExists em), s)
    | none =>
      match hash_password salt password with
      | none => (.error .infrastructure, s)
      | some h =>
        let u : User := ⟨newId, em, h, true, now, now⟩
        match um_create s u with
        | (.ok _, s') => (.ok u, s')
        | (.error _, s') => (.error .infrastructure, s')

/-! ### `app/use_cases/user/login_user.py` — `LoginUserUseCase` -/

/-- `LoginUserUseCase.execute(email, password)`: validation, normalized
lookup, `InvalidCredentialsException` when the email is unknown,
`UserInactiveException` when the account is inactive, the same
`InvalidCredentialsException` when the password fails verification, and a
fresh access token on success.  Read-only: the store is not touched. -/
def login_execute (s : Store) (email password : Str) (secret : Str)
    (ttlMin now : Nat) : Except Err (Token × User) :=
  if isBlank email then .error (.validation "email")
  else if isBlank password then .error (.validation "password")
  else if !is_valid_email email then .error (.validation "email")
  else
    let em := normalizeEmail email
    match get_user_by_email s em with
    | none => .error .invalidCredentials
    | some u =>
      if !u.is_active then .error (.userInactive u.id)
      else if !verify_password password u.password_hash then
        .error .invalidCredentials
      else .ok (create_access_token u.id u.email secret ttlMin now, u)

/-! ### `app/use_cases/user/list_users.py` — `ListUsersUseCase` -/

/-- `ListUsersUseCase._count_active_users`: fetch one page of at most 1000
documents and count the active ones in it. -/
def count_active_users (s : Store) : Nat :=
  (get_all s 0 1000).countP (fun u => u.is_active)

/-- `ListUsersUseCase.execute(requesting_user_id, skip, limit)`.  `skip`
and `limit` are Python ints (possibly negative), hence `Int`.  Returns the
active users of the requested page and the `_count_active_users` total. -/
def list_users_execute (s : Store) (rid : Str) (skip limit : Int) :
    Except Err (List User × Nat) :=
  if isBlank rid then .error (.valueErr "Requesting user ID es requerido")
  else if skip < 0 then .error (.valueErr "Skip debe ser mayor o igual a 0")
  else if limit < 1 ∨ limit > 100 then
    .error (.valueErr "Limit debe estar entre 1 y 100")
  else
    match get_user_by_id s rid with
    | none => .error (.valueErr "Usuario no autorizado")
    | some ru =>
      if !ru.is_active then .error (.valueErr "Usuario no autorizado")
      else
        let users := get_all s skip.toNat limit.toNat
        let activeUsers := users.filter (fun u => u.is_active)
        .ok (activeUsers, count_active_users s)

/-! ### `app/use_cases/user/update_user.py` — `UpdateUserUseCase` -/

/-- `UpdateUserUseCase._update_user_email`: format check, normalize,
conflict check against a different id, then apply via
`User.update_email`. -/
def update_email_step (s : Store) (u : User) (e : Str) (now : Nat) :
    Except Err User :=
  if !is_valid_email e then .error (.validation "email")
  else
    let e' := normalizeEmail e
    match get_user_by_email s e' with
    | some existing =>
      if existing.id ≠ u.id then .error (.conflictEmailInUse e')
      else .ok (u.update_email e' now)
    | none => .ok (u.update_email e' now)

/-- `UpdateUserUseCase._update_user_password`: length check, hash, apply
via `User.update_password_hash` (an empty password would make the hasher
raise `ValueError`, but the length check already rejects it). -/
def update_password_step (u : User) (p salt : Str) (now : Nat) :
    Except Err User :=
  if !is_valid_password p then .error (.validation "password")
  else
    match hash_password salt p with
    | none => .error (.valueErr "Password no puede estar vacío")
    | some h => .ok (u.update_password_hash h now)

/-- `UpdateUserUseCase.execute(user_id, requesting_user_id, new_email,
new_password)`.  `now` is the request-time clock used by the entity
mutators, `nowDb` the database-side clock of the final single persist. -/
def update_user_execute (s : Store) (uid rid : Str)
    (newEmail newPassword : Option Str) (salt : Str) (now nowDb : Nat) :
    Except Err User × Store :=
  if isBlank uid then (.error (.validation "user_id"), s)
  else if isBlank rid then (.error (.validation "requesting_user_id"), s)
  else if !truthy newEmail && !truthy newPassword then
    (.error (.businessRule "update_fields_required"), s)
  else
    match get_user_by_id s rid with
    | none => (.error (.authorization "Usuario solicitante no encontrado"), s)
    | some ru =>
      if !ru.is_active then (.error (.userInactive rid), s)
      else if uid ≠ rid then
        (.error (.authorization "No tienes permisos para actualizar este usuario"), s)
      else
        match get_user_by_id s uid with
        | none => (.error (.userNotFound uid), s)
        | some u =>
          if !u.is_active then (.error (.userInactive uid), s)
          else
            match
              (if truthy newEmail then update_email_step s u (newEmail.getD []) now
               else .ok u) with
            | .error e => (.error e, s)
            | .ok u1 =>
              match
                (if truthy newPassword then
                   update_password_step u1 (newPassword.getD []) salt now
                 else .ok u1) with
              | .error e => (.error e, s)
              | .ok u2 => um_update s u2 nowDb

/-! ### `app/use_cases/user/delete_user.py` — `DeleteUserUseCase` -/

/-- `DeleteUserUseCase.execute_soft_delete(user_id, requesting_user_id)`:
plain `ValueError`s for blank ids, foreign target, missing target and
already-inactive target; otherwise `User.deactivate` and persist. -/
def soft_delete_execute (s : Store) (uid rid : Str) (now nowDb : Nat) :
    Except Err User × Store :=
  if isBlank uid then (.error (.valueErr "User ID es requerido"), s)
  else if isBlank rid then (.error (.valueErr "Requesting user ID es requerido"), s)
  else if uid ≠ rid then
    (.error (.valueErr "No tienes permisos para eliminar este usuario"), s)
  else
    match get_user_by_id s uid with
    | none => (.error (.valueErr "Usuario no encontrado"), s)
    | some u =>
      if !u.is_active then (.error (.valueErr "Usuario ya está inactivo"), s)
      else um_update s (u.deactivate now) nowDb

/-- `DeleteUserUseCase.execute_hard_delete(user_id, requesting_user_id)`:
same guards (without the active check), then physical `delete`. -/
def hard_delete_execute (s : Store) (uid rid : Str) : Except Err Str × Store :=
  if isBlank uid then (.error (.valueErr "User ID es requerido"), s)
  else if isBlank rid then (.error (.valueErr "Requesting user ID es requerido"), s)
  else if uid ≠ rid then
    (.error (.valueErr "No tienes permisos para eliminar este usuario"), s)
  else
    match get_user_by_id s uid with
    | none => (.error (.valueErr "Usuario no encontrado"), s)
    | some _ =>
      match um_delete s uid with
      | (.ok _, s') => (.ok uid, s')
      | (.error e, s') => (.error e, s')

/-- `DeleteUserUseCase.reactivate_user(user_id, requesting_user_id)`:
guards mirror the soft delete, requiring the target to be currently
inactive; then `User.activate` and persist. -/
def reactivate_execute (s : Store) (uid rid : Str) (now nowDb : Nat) :
    Except Err User × Store :=
  if isBlank uid then (.error (.valueErr "User ID es requerido"), s)
  else if isBlank rid then (.error (.valueErr "Requesting user ID es requerido"), s)
  else if uid ≠ rid then
    (.error (.valueErr "No tienes permisos para reactivar este usuario"), s)
  else
    match get_user_by_id s uid with
    | none => (.error (.valueErr "Usuario no encontrado"), s)
    | some u =>
      if u.is_active then (.error (.valueErr "Usuario ya está activo"), s)
      else um_update s (u.activate now) nowDb

/-- A store of `n` distinct active users (ids `[0] … [n-1]`), used to
exercise the list use case on stores larger than the 1000-document page
`_count_active_users` fetches. -/
def mkActiveUser (i : Nat) : User := ⟨[i], [i], [104], true, 0, 0⟩

/-- A store with 1001 active users. -/
def bigStore : Store := (List.range 1001).map mkActiveUser

/-! ## Helper lemmas about the string model -/

theorem lowerChar_idem (c : Nat) : lowerChar (lowerChar c) = lowerChar c := by
  unfold lowerChar
  split_ifs <;> omega

theorem isSpace_lowerChar (c : Nat) : isSpace (lowerChar c) = isSpace c := by
  unfold lowerChar isSpace
  split_ifs with h
  · simp only [decide_eq_decide]
    omega
  · rfl

theorem strLower_idem (s : Str) : strLower (strLower s) = strLower s := by
  unfold strLower
  induction s with
  | nil => rfl
  | cons c t ih => simp only [List.map_cons, lowerChar_idem, List.map_map] at *
                   simpa using ih

theorem dropWhile_map_comm (f : Nat → Nat) (p : Nat → Bool)
    (hp : ∀ c, p (f c) = p c) (l : List Nat) :
    List.dropWhile p (l.map f) = (List.dropWhile p l).map f := by
  induction l with
  | nil => rfl
  | cons c t ih =>
    simp only [List.map_cons, List.dropWhile_cons, hp c]
    by_cases h : p c = true
    · rw [if_pos h, if_pos h, ih]
    · rw [if_neg h, if_neg h, List.map_cons]

theorem dropWhile_idem (p : Nat → Bool) (l : List Nat) :
    List.dropWhile p (List.dropWhile p l) = List.dropWhile p l := by
  induction l with
  | nil => rfl
  | cons c t ih =>
    by_cases h : p c = true
    · rw [List.dropWhile_cons, if_pos h, ih]
    · rw [List.dropWhile_cons, if_neg h, List.dropWhile_cons, if_neg h]

theorem strStrip_strLower_comm (s : Str) :
    strLower (strStrip s) = strStrip (strLower s) := by
  unfold strStrip strLower
  rw [List.map_reverse, ← dropWhile_map_comm lowerChar isSpace isSpace_lowerChar,
    List.map_reverse, ← dropWhile_map_comm lowerChar isSpace isSpace_lowerChar]

/-- The head of `dropWhile p l` (when it exists) does not satisfy `p`. -/
theorem dropWhile_head_false (p : Nat → Bool) (l : List Nat) :
    List.dropWhile p l = [] ∨
      ∃ a t, List.dropWhile p l = a :: t ∧ p a = false := by
  induction l with
  | nil => exact Or.inl rfl
  | cons c t ih =>
    by_cases h : p c = true
    · rw [List.dropWhile_cons, if_pos h]; exact ih
    · rw [List.dropWhile_cons, if_neg h]
      exact Or.inr ⟨c, t, rfl, Bool.eq_false_iff.mpr h⟩

/-- `dropWhile` from the end of a list yields a prefix of it. -/
theorem reverse_dropWhile_reverse_prefix (p : Nat → Bool) (l : List Nat) :
    (List.dropWhile p l.reverse).reverse <+: l := by
  obtain ⟨z, hz⟩ := List.dropWhile_suffix (l := l.reverse) p
  refine ⟨z.reverse, ?_⟩
  have := congrArg List.reverse hz
  simpa using this

/-- A prefix whose source starts with a non-`p` element is untouched by
`dropWhile p`. -/
theorem dropWhile_of_prefix (p : Nat → Bool) (u v : List Nat)
    (hpre : u <+: v) (hv : v = [] ∨ ∃ a t, v = a :: t ∧ p a = false) :
    List.dropWhile p u = u := by
  cases u with
  | nil => rfl
  | cons b u' =>
    obtain ⟨z, hz⟩ := hpre
    rcases hv with h0 | ⟨a, t, hat, hfa⟩
    · rw [h0] at hz; exact absurd hz (by simp)
    · rw [hat] at hz
      have hba : b = a := by
        have := congrArg (List.head? ·) hz
        simpa using this
      rw [List.dropWhile_cons, hba, hfa]
      simp

theorem strStrip_idem (s : Str) : strStrip (strStrip s) = strStrip s := by
  have key : List.dropWhile isSpace (strStrip s) = strStrip s := by
    apply dropWhile_of_prefix isSpace _ (List.dropWhile isSpace s)
    · exact reverse_dropWhile_reverse_prefix isSpace (List.dropWhile isSpace s)
    · exact dropWhile_head_false isSpace s
  show ((List.dropWhile isSpace (strStrip s)).reverse.dropWhile
      isSpace).reverse = strStrip s
  rw [key]
  show ((((s.dropWhile isSpace).reverse.dropWhile
      isSpace).reverse).reverse.dropWhile isSpace).reverse = strStrip s
  rw [List.reverse_reverse, dropWhile_idem]
  rfl

theorem normalizeEmail_idem (e : Str) :
    normalizeEmail (normalizeEmail e) = normalizeEmail e := by
  unfold normalizeEmail
  rw [strStrip_strLower_comm, strLower_idem, strStrip_idem]

/-- Looking an email up by its normalized form finds the same document as
looking up the raw form, because the repository normalizes again. -/
theorem get_user_by_email_norm (s : Store) (e : Str) :
    get_user_by_email s (normalizeEmail e) = get_user_by_email s e := by
  unfold get_user_by_email
  rw [normalizeEmail_idem]

/-! ## Helper lemmas about the hasher model -/

theorem takeWhile_no_dollar (salt p : Str) (h : (36 : Nat) ∉ salt) :
    List.takeWhile (fun c => !(c == 36)) (salt ++ 36 :: p) = salt := by
  induction salt with
  | nil => simp [List.takeWhile_cons]
  | cons c t ih =>
    have hc : c ≠ 36 := fun hc => h (hc ▸ List.mem_cons_self c t)
    have ht : (36 : Nat) ∉ t := fun hm => h (List.mem_cons_of_mem c hm)
    simp only [List.cons_append, List.takeWhile_cons]
    rw [if_pos (by simp [hc]), ih ht]

theorem extractSalt_bhash (salt p : Str) (h : (36 : Nat) ∉ salt) :
    extractSalt (bhash salt p) = salt := by
  unfold extractSalt bhash
  exact takeWhile_no_dollar salt p h

theorem bhash_ne_self (salt p : Str) : bhash salt p ≠ p := by
  intro h
  have := congrArg List.length h
  simp only [bhash, List.length_cons, List.length_append] at this
  omega

theorem bhash_injective (salt p p2 : Str) (h : bhash salt p = bhash salt p2) :
    p = p2 := by
  unfold bhash at h
  injection h with _ h2
  have h3 := List.append_cancel_left h2
  injection h3

theorem checkpw_bhash (p p2 salt : Str) (h : (36 : Nat) ∉ salt) :
    checkpw p (bhash salt p2) = (p == p2) := by
  unfold checkpw
  rw [extractSalt_bhash salt p2 h]
  by_cases hp : p = p2
  · subst hp; simp
  · have hb : bhash salt p ≠ bhash salt p2 :=
      fun hb => hp (bhash_injective salt p p2 hb)
    simp [hb, hp]

theorem verify_password_bhash_self (p salt : Str) (hp : p ≠ [])
    (hs : (36 : Nat) ∉ salt) : verify_password p (bhash salt p) = true := by
  unfold verify_password
  rw [if_neg (by simp [bhash, hp]), checkpw_bhash p p salt hs]
  simp

theorem verify_password_bhash_other (p p2 salt : Str) (hne : p ≠ p2)
    (hs : (36 : Nat) ∉ salt) : verify_password p (bhash salt p2) = false := by
  unfold verify_password
  by_cases hp : p.isEmpty
  · rw [if_pos (by simp [hp])]
  · rw [if_neg (by simp [bhash, hp]), checkpw_bhash p p2 salt hs]
    simp [hne]

theorem is_valid_password_ne_nil (p : Str) (h : is_valid_password p = true) :
    p ≠ [] := by
  intro hnil
  subst hnil
  simp [is_valid_password] at h

theorem is_valid_email_ne_nil (e : Str) (h : is_valid_email e = true) :
    e ≠ [] := by
  intro hnil
  subst hnil
  simp [is_valid_email] at h

/-! ## Claims -/

/-- C9: for every non-empty plaintext `p`, `hash(p)` differs from `p` and
`verify(p, hash(p))` returns true; for distinct plaintexts `p ≠ p2`,
`verify(p, hash(p2))` returns false.  bcrypt's fresh salt is the explicit
`salt` parameter; bcrypt salt strings never contain `$` (codepoint 36),
which is the `hs` hypothesis. -/
theorem c9_hash_verify_roundtrip (salt p p2 : Str) (hs : (36 : Nat) ∉ salt) :
    (p ≠ [] →
      hash_password salt p = some (bhash salt p) ∧
      bhash salt p ≠ p ∧
      verify_password p (bhash salt p) = true) ∧
    (p ≠ p2 → p2 ≠ [] → verify_password p (bhash salt p2) = false) := by
  constructor
  · intro hp
    refine ⟨?_, bhash_ne_self salt p, verify_password_bhash_self p salt hp hs⟩
    unfold hash_password
    rw [if_neg (by simp [hp])]
  · intro hne _
    exact verify_password_bhash_other p p2 salt hne hs

/-- Witness for C9 at salt `"s"`, `p = "secret"`, `p2 = "other1"`. -/
theorem c9_witness :
    (hash_password [115] [1,2,3,4,5,6] = some (bhash [115] [1,2,3,4,5,6]) ∧
      bhash [115] [1,2,3,4,5,6] ≠ [1,2,3,4,5,6] ∧
      verify_password [1,2,3,4,5,6] (bhash [115] [1,2,3,4,5,6]) = true) ∧
    verify_password [1,2,3,4,5,6] (bhash [115] [7,8,9,10,11,12]) = false := by
  have h := c9_hash_verify_roundtrip [115] [1,2,3,4,5,6] [7,8,9,10,11,12]
    (by decide)
  exact ⟨h.1 (by decide), h.2 (by decide) (by decide)⟩

/-- C8: `JWTHandler.verify_token` is a total function returning `none`
(never raising) on a malformed token, a token signed with the wrong key, an
expired token, and a token whose `type` tag is not "access"; and it returns
a payload exactly for a token signed with the server secret, unexpired at
the verification time, and carrying the "access" tag. -/
theorem c8_verify_token_characterization (secret : Str) (now : Nat) :
    (verify_token .malformed secret now = none) ∧
    (∀ p key, key ≠ secret → verify_token (.signed p key) secret now = none) ∧
    (∀ p, p.exp ≤ now → verify_token (.signed p secret) secret now = none) ∧
    (∀ p, p.typ ≠ "access" → verify_token (.signed p secret) secret now = none) ∧
    (∀ t p, verify_token t secret now = some p ↔
      (t = .signed p secret ∧ now < p.exp ∧ p.typ = "access")) := by
  refine ⟨rfl, ?_, ?_, ?_, ?_⟩
  · intro p key hk
    simp [verify_token, jwtDecode, hk]
  · intro p hexp
    simp [verify_token, jwtDecode, hexp]
  · intro p htyp
    by_cases hexp : p.exp ≤ now
    · simp [verify_token, jwtDecode, hexp]
    · simp [verify_token, jwtDecode, hexp, htyp]
  · intro t p
    constructor
    · intro h
      cases t with
      | malformed => exact absurd h (by simp [verify_token, jwtDecode])
      | signed q key =>
        by_cases hk : key = secret
        · subst hk
          by_cases hexp : q.exp ≤ now
          · exact absurd h (by simp [verify_token, jwtDecode, hexp])
          · by_cases htyp : q.typ = "access"
            · have hq : q = p := by
                simpa [verify_token, jwtDecode, hexp, htyp] using h
              subst hq
              exact ⟨rfl, by omega, htyp⟩
            · exact absurd h (by simp [verify_token, jwtDecode, hexp, htyp])
        · exact absurd h (by simp [verify_token, jwtDecode, hk])
    · rintro ⟨rfl, hexp, htyp⟩
      simp [verify_token, jwtDecode, htyp, Nat.not_le.mpr hexp]

/-- Witness for C8: a wrong-key token is rejected and a good token is
accepted, at concrete values. -/
theorem c8_witness :
    verify_token (.signed ⟨some [49], [101], 100, 0, "access"⟩ [9]) [7] 5
        = none ∧
    verify_token (.signed ⟨some [49], [101], 100, 0, "access"⟩ [7]) [7] 5
        = some ⟨some [49], [101], 100, 0, "access"⟩ := by
  have h := c8_verify_token_characterization [7] 5
  refine ⟨h.2.1 _ [9] (by decide), ?_⟩
  exact (h.2.2.2.2 (.signed ⟨some [49], [101], 100, 0, "access"⟩ [7])
    ⟨some [49], [101], 100, 0, "access"⟩).mpr ⟨rfl, by decide, rfl⟩

/-- C6: for a well-formed email and non-empty password, login against an
unknown email and login against an active stored identity whose password
fails verification produce the identical outcome: the same
`InvalidCredentialsException` (a single constructor whose message is the
fixed string "Email o contraseña incorrectos" in both raise sites). -/
theorem c6_login_failures_indistinguishable (s : Store) (email password : Str)
    (secret : Str) (ttlMin now : Nat)
    (h1 : isBlank email = false) (h2 : isBlank password = false)
    (h3 : is_valid_email email = true) :
    (get_user_by_email s email = none →
      login_execute s email password secret ttlMin now =
        .error .invalidCredentials) ∧
    (∀ u, get_user_by_email s email = some u → u.is_active = true →
      verify_password password u.password_hash = false →
      login_execute s email password secret ttlMin now =
        .error .invalidCredentials) := by
  constructor
  · intro hnone
    simp [login_execute, h1, h2, h3, get_user_by_email_norm, hnone]
  · intro u hsome hact hv
    simp [login_execute, h1, h2, h3, get_user_by_email_norm, hsome, hact, hv]

/-- Witness for C6: an unknown email on the empty store, and a stored
active identity with a non-matching password hash, both yield the
identical `invalidCredentials` error. -/
theorem c6_witness :
    login_execute [] [97,64,98,46,99,111] [1,2,3,4,5,6] [7] 30 0 =
      .error .invalidCredentials ∧
    login_execute [⟨[49], [97,64,98,46,99,111], [104], true, 0, 0⟩]
        [97,64,98,46,99,111] [1,2,3,4,5,6] [7] 30 0 =
      .error .invalidCredentials := by
  refine ⟨?_, ?_⟩
  · exact (c6_login_failures_indistinguishable [] [97,64,98,46,99,111]
      [1,2,3,4,5,6] [7] 30 0 (by decide) (by decide) (by decide)).1 (by decide)
  · exact (c6_login_failures_indistinguishable
      [⟨[49], [97,64,98,46,99,111], [104], true, 0, 0⟩] [97,64,98,46,99,111]
      [1,2,3,4,5,6] [7] 30 0 (by decide) (by decide) (by decide)).2
      ⟨[49], [97,64,98,46,99,111], [104], true, 0, 0⟩ (by decide) (by decide)
      (by decide)

/-- C10: when the stored identity found for the (normalized) login email is
inactive, login raises `UserInactiveException` for every supplied
password: the active check precedes password verification, so the outcome
does not depend on the supplied password, and the theorem places no
constraint on `u.password_hash`, reflecting that the stored hash is never
consulted. -/
theorem c10_login_inactive_precedes_password (s : Store)
    (email password : Str) (secret : Str) (ttlMin now : Nat) (u : User)
    (h1 : isBlank email = false) (h2 : isBlank password = false)
    (h3 : is_valid_email email = true)
    (h4 : get_user_by_email s email = some u)
    (h5 : u.is_active = false) :
    login_execute s email password secret ttlMin now =
      .error (.userInactive u.id) := by
  simp [login_execute, h1, h2, h3, get_user_by_email_norm, h4, h5]

/-- Witness for C10: an inactive stored identity makes login fail with
`userInactive` both for the matching password and for a wrong one. -/
theorem c10_witness :
    login_execute [⟨[49], [97,64,98,46,99,111], bhash [115] [1,2,3,4,5,6],
        false, 0, 0⟩] [97,64,98,46,99,111] [1,2,3,4,5,6] [7] 30 0 =
      .error (.userInactive [49]) ∧
    login_execute [⟨[49], [97,64,98,46,99,111], bhash [115] [1,2,3,4,5,6],
        false, 0, 0⟩] [97,64,98,46,99,111] [57,57,57,57,57,57] [7] 30 0 =
      .error (.userInactive [49]) := by
  constructor
  · exact c10_login_inactive_precedes_password _ _ _ _ _ _
      ⟨[49], [97,64,98,46,99,111], bhash [115] [1,2,3,4,5,6], false, 0, 0⟩
      (by decide) (by decide) (by decide) (by decide) (by decide)
  · exact c10_login_inactive_precedes_password _ _ _ _ _ _
      ⟨[49], [97,64,98,46,99,111], bhash [115] [1,2,3,4,5,6], false, 0, 0⟩
      (by decide) (by decide) (by decide) (by decide) (by decide)

/-- C1 (amended): the first three Security Gate failures — token fails to
verify, payload carries no subject id, subject id unresolved — raise the
one shared `credentials_exception` (401, "Could not validate credentials",
`WWW-Authenticate` header); the fourth failure — resolved identity
inactive — also responds 401 but with the distinct detail "Inactive user"
and no `WWW-Authenticate` header, so it is distinguishable from the other
three, contrary to the original claim. -/
theorem c1_gate_failure_modes (s : Store) (t : Token) (secret : Str)
    (now : Nat) :
    (verify_token t secret now = none →
      get_current_user s t secret now = .error credentials_exception) ∧
    (∀ p, verify_token t secret now = some p → p.user_id = none →
      get_current_user s t secret now = .error credentials_exception) ∧
    (∀ p uid, verify_token t secret now = some p → p.user_id = some uid →
      get_user_by_id s uid = none →
      get_current_user s t secret now = .error credentials_exception) ∧
    (∀ p uid u, verify_token t secret now = some p → p.user_id = some uid →
      get_user_by_id s uid = some u → u.is_active = false →
      get_current_user s t secret now = .error ⟨401, "Inactive user", false⟩) ∧
    ((⟨401, "Inactive user", false⟩ : HttpErr) ≠ credentials_exception) := by
  refine ⟨?_, ?_, ?_, ?_, by decide⟩
  · intro h
    simp [get_current_user, h]
  · intro p hp hid
    simp [get_current_user, hp, hid]
  · intro p uid hp hid hu
    simp [get_current_user, hp, hid, hu]
  · intro p uid u hp hid hu hact
    simp [get_current_user, hp, hid, hu, hact]

/-- Witness for C1: each of the four failure branches at concrete inputs
(store with one inactive user "1"; secret "k" = codepoint 107). -/
theorem c1_witness :
    get_current_user [⟨[49], [101], [104], false, 0, 0⟩] .malformed [107] 5 =
      .error credentials_exception ∧
    get_current_user [⟨[49], [101], [104], false, 0, 0⟩]
        (.signed ⟨none, [101], 100, 0, "access"⟩ [107]) [107] 5 =
      .error credentials_exception ∧
    get_current_user [⟨[49], [101], [104], false, 0, 0⟩]
        (.signed ⟨some [50], [101], 100, 0, "access"⟩ [107]) [107] 5 =
      .error credentials_exception ∧
    get_current_user [⟨[49], [101], [104], false, 0, 0⟩]
        (.signed ⟨some [49], [101], 100, 0, "access"⟩ [107]) [107] 5 =
      .error ⟨401, "Inactive user", false⟩ := by
  refine ⟨?_, ?_, ?_, ?_⟩
  · exact (c1_gate_failure_modes _ .malformed [107] 5).1 (by decide)
  · exact (c1_gate_failure_modes _ _ [107] 5).2.1
      ⟨none, [101], 100, 0, "access"⟩ (by decide) (by decide)
  · exact (c1_gate_failure_modes _ _ [107] 5).2.2.1
      ⟨some [50], [101], 100, 0, "access"⟩ [50] (by decide) (by decide)
      (by decide)
  · exact (c1_gate_failure_modes _ _ [107] 5).2.2.2.1
      ⟨some [49], [101], 100, 0, "access"⟩ [49]
      ⟨[49], [101], [104], false, 0, 0⟩ (by decide) (by decide) (by decide)
      (by decide)

/-- Counterexample to C1 as stated: with one inactive stored identity and a
validly signed token for it, the gate's error (401, "Inactive user",
no auth header) differs from the generic error produced for a garbage
token (401, "Could not validate credentials", with auth header) — the
inactive-identity failure is distinguishable from the other failures. -/
theorem c1_counterexample :
    get_current_user [⟨[49], [101], [104], false, 0, 0⟩]
        (.signed ⟨some [49], [101], 100, 0, "access"⟩ [107]) [107] 5 =
      .error ⟨401, "Inactive user", false⟩ ∧
    get_current_user [⟨[49], [101], [104], false, 0, 0⟩] .malformed [107] 5 =
      .error credentials_exception ∧
    ((⟨401, "Inactive user", false⟩ : HttpErr) ≠ credentials_exception) := by
  refine ⟨rfl, rfl, by decide⟩

/-- C7 (amended): soft-deleting an already-inactive identity and
reactivating an already-active one both fail and leave the store
untouched, but with a plain `ValueError` ("Usuario ya está inactivo" /
"Usuario ya está activo") that the routes surface as HTTP 400 — not with
an exception of the repository's `BusinessRuleException` class (HTTP 422)
as the original claim states. -/
theorem c7_already_in_state_value_error :
    (∀ (s : Store) (uid : Str) (u : User) (now nowDb : Nat),
      isBlank uid = false → get_user_by_id s uid = some u →
      u.is_active = false →
      soft_delete_execute s uid uid now nowDb =
        (.error (.valueErr "Usuario ya está inactivo"), s)) ∧
    (∀ (s : Store) (uid : Str) (u : User) (now nowDb : Nat),
      isBlank uid = false → get_user_by_id s uid = some u →
      u.is_active = true →
      reactivate_execute s uid uid now nowDb =
        (.error (.valueErr "Usuario ya está activo"), s)) ∧
    user_route_value_error_status "Usuario ya está inactivo" = 400 ∧
    user_route_value_error_status "Usuario ya está activo" = 400 := by
  refine ⟨?_, ?_, by decide, by decide⟩
  · intro s uid u now nowDb hb hu hact
    simp [soft_delete_execute, hb, hu, hact]
  · intro s uid u now nowDb hb hu hact
    simp [reactivate_execute, hb, hu, hact]

/-- Witness for C7 at a one-user store (user id "1"). -/
theorem c7_witness :
    soft_delete_execute [⟨[49], [101], [104], false, 0, 0⟩] [49] [49] 1 2 =
      (.error (.valueErr "Usuario ya está inactivo"),
        [⟨[49], [101], [104], false, 0, 0⟩]) ∧
    reactivate_execute [⟨[49], [101], [104], true, 0, 0⟩] [49] [49] 1 2 =
      (.error (.valueErr "Usuario ya está activo"),
        [⟨[49], [101], [104], true, 0, 0⟩]) := by
  constructor
  · exact c7_already_in_state_value_error.1 _ [49]
      ⟨[49], [101], [104], false, 0, 0⟩ 1 2 (by decide) (by decide) (by decide)
  · exact c7_already_in_state_value_error.2.1 _ [49]
      ⟨[49], [101], [104], true, 0, 0⟩ 1 2 (by decide) (by decide) (by decide)

/-- Counterexample to C7 as stated: at the concrete already-inactive (resp.
already-active) identity the raised error is a plain `ValueError`, which is
not in the `BusinessRuleException` class family and is surfaced as HTTP
400, while the repository maps `BusinessRuleException` to 422. -/
theorem c7_counterexample :
    soft_delete_execute [⟨[49], [101], [104], false, 0, 0⟩] [49] [49] 1 2 =
      (.error (.valueErr "Usuario ya está inactivo"),
        [⟨[49], [101], [104], false, 0, 0⟩]) ∧
    isBusinessRuleClass (.valueErr "Usuario ya está inactivo") = false ∧
    handler_status (.valueErr "Usuario ya está inactivo") = 400 ∧
    reactivate_execute [⟨[49], [101], [104], true, 0, 0⟩] [49] [49] 1 2 =
      (.error (.valueErr "Usuario ya está activo"),
        [⟨[49], [101], [104], true, 0, 0⟩]) ∧
    isBusinessRuleClass (.valueErr "Usuario ya está activo") = false ∧
    handler_status (.valueErr "Usuario ya está activo") = 400 ∧
    handler_status (.businessRule "user_already_inactive") = 422 := by
  refine ⟨rfl, rfl, by decide, rfl, rfl, by decide, by decide⟩

/-- C4: whenever the target id differs from the requesting id, update,
soft delete, hard delete and reactivate all fail before any repository
write, leaving the store unchanged.  Update raises the repository's
`AuthorizationException` (mapped to 403 by the centralized handlers); the
delete/reactivate operations raise a `ValueError` whose "permisos" message
the routes map to the same 403 Forbidden — the caller-visible
authorization class.  For update, the requesting identity is assumed
resolved and active and at least one field supplied, since those guards
run first. -/
theorem c4_self_only_never_modifies (s : Store) (uid rid : Str)
    (newEmail newPassword : Option Str) (salt : Str) (now nowDb : Nat)
    (ru : User) (hneq : uid ≠ rid)
    (hbu : isBlank uid = false) (hbr : isBlank rid = false)
    (hru : get_user_by_id s rid = some ru) (hact : ru.is_active = true)
    (hfields : (truthy newEmail || truthy newPassword) = true) :
    update_user_execute s uid rid newEmail newPassword salt now nowDb =
      (.error (.authorization "No tienes permisos para actualizar este usuario"),
        s) ∧
    handler_status
      (.authorization "No tienes permisos para actualizar este usuario") = 403 ∧
    soft_delete_execute s uid rid now nowDb =
      (.error (.valueErr "No tienes permisos para eliminar este usuario"), s) ∧
    hard_delete_execute s uid rid =
      (.error (.valueErr "No tienes permisos para eliminar este usuario"), s) ∧
    reactivate_execute s uid rid now nowDb =
      (.error (.valueErr "No tienes permisos para reactivar este usuario"), s) ∧
    user_route_value_error_status
      "No tienes permisos para eliminar este usuario" = 403 ∧
    user_route_value_error_status
      "No tienes permisos para reactivar este usuario" = 403 := by
  have hfields' : (!truthy newEmail && !truthy newPassword) = false := by
    cases h1 : truthy newEmail <;> cases h2 : truthy newPassword <;>
      simp_all
  refine ⟨?_, by decide, ?_, ?_, ?_, by decide, by decide⟩
  · simp [update_user_execute, hbu, hbr, hfields', hru, hact, hneq]
  · simp [soft_delete_execute, hbu, hbr, hneq]
  · simp [hard_delete_execute, hbu, hbr, hneq]
  · simp [reactivate_execute, hbu, hbr, hneq]

/-- Witness for C4: requester "2" (present and active) targeting user "1"
with a password-only update. -/
theorem c4_witness :
    update_user_execute [⟨[50], [101], [104], true, 0, 0⟩] [49] [50]
        none (some [1,2,3,4,5,6]) [115] 1 2 =
      (.error (.authorization "No tienes permisos para actualizar este usuario"),
        [⟨[50], [101], [104], true, 0, 0⟩]) ∧
    soft_delete_execute [⟨[50], [101], [104], true, 0, 0⟩] [49] [50] 1 2 =
      (.error (.valueErr "No tienes permisos para eliminar este usuario"),
        [⟨[50], [101], [104], true, 0, 0⟩]) := by
  have h := c4_self_only_never_modifies [⟨[50], [101], [104], true, 0, 0⟩]
    [49] [50] none (some [1,2,3,4,5,6]) [115] 1 2
    ⟨[50], [101], [104], true, 0, 0⟩ (by decide) (by decide) (by decide)
    (by decide) (by decide) (by decide)
  exact ⟨h.1, h.2.2.1⟩

/-- Every user in a store built from `mkActiveUser` is active. -/
theorem mkActiveUser_all_active (l : List Nat) :
    ∀ u ∈ l.map mkActiveUser, (fun u : User => u.is_active) u = true := by
  intro u hu
  obtain ⟨i, _, rfl⟩ := List.mem_map.mp hu
  rfl

theorem count_active_users_bigStore : count_active_users bigStore = 1000 := by
  unfold count_active_users get_all bigStore
  rw [List.drop_zero, ← List.map_take, List.take_range]
  have hmin : (1000 : Nat) ⊓ 1001 = 1000 := by decide
  rw [hmin, List.countP_eq_length.mpr (mkActiveUser_all_active _)]
  simp

theorem countP_bigStore : bigStore.countP (fun u => u.is_active) = 1001 := by
  unfold bigStore
  rw [List.countP_eq_length.mpr (mkActiveUser_all_active _)]
  simp

theorem get_user_by_id_bigStore :
    get_user_by_id bigStore [0] = some (mkActiveUser 0) := by
  unfold get_user_by_id bigStore
  rw [List.range_succ_eq_map]
  simp [List.find?, mkActiveUser]

/-- C3 (amended): for an authorized list request with `skip ≥ 0` and
`limit ∈ [1,100]`, every identity in the returned page is active and the
returned total is the number of active identities among the first 1000
documents of the store — which equals the active count of the whole store
whenever the store holds at most 1000 identities (hypothesis `hlen`), but
not in general. -/
theorem c3_list_active_page_and_total (s : Store) (rid : Str)
    (skip limit : Int) (ru : User)
    (hbr : isBlank rid = false)
    (hru : get_user_by_id s rid = some ru) (hact : ru.is_active = true)
    (hskip : 0 ≤ skip) (hlim1 : 1 ≤ limit) (hlim2 : limit ≤ 100)
    (hlen : s.length ≤ 1000) :
    list_users_execute s rid skip limit =
      .ok (((s.drop skip.toNat).take limit.toNat).filter
          (fun u => u.is_active),
        s.countP (fun u => u.is_active)) ∧
    ∀ u ∈ ((s.drop skip.toNat).take limit.toNat).filter
        (fun u => u.is_active), u.is_active = true := by
  have h1 : ¬ (skip < 0) := not_lt.mpr hskip
  have h2 : ¬ (limit < 1 ∨ limit > 100) := by omega
  constructor
  · simp [list_users_execute, hbr, h1, h2, hru, hact, count_active_users,
      get_all, List.drop_zero, List.take_of_length_le hlen]
  · intro u hu
    exact (List.mem_filter.mp hu).2

/-- Witness for C3 at a one-user store: the page is that user and the
total is 1. -/
theorem c3_witness :
    list_users_execute [⟨[49], [101], [104], true, 0, 0⟩] [49] 0 20 =
      .ok ([⟨[49], [101], [104], true, 0, 0⟩], 1) := by
  have h := c3_list_active_page_and_total [⟨[49], [101], [104], true, 0, 0⟩]
    [49] 0 20 ⟨[49], [101], [104], true, 0, 0⟩ (by decide) (by decide)
    (by decide) (by decide) (by decide) (by decide) (by decide)
  exact h.1

/-- Counterexample to C3 as stated: with 1001 active identities in the
store, the returned total is 1000 (the count is taken over a single
1000-document page), not the store's true active count 1001. -/
theorem c3_counterexample :
    list_users_execute bigStore [0] 0 20 =
      .ok ((List.range 20).map mkActiveUser, 1000) ∧
    bigStore.countP (fun u => u.is_active) = 1001 ∧
    (1000 : Nat) ≠ 1001 := by
  refine ⟨?_, countP_bigStore, by decide⟩
  have h1 : ¬ ((0 : Int) < 0) := by decide
  have h2 : ¬ ((20 : Int) < 1 ∨ (20 : Int) > 100) := by decide
  have hpage : get_all bigStore (Int.toNat 0) (Int.toNat 20) =
      (List.range 20).map mkActiveUser := by
    unfold get_all bigStore
    show List.take 20 (List.drop 0 (List.map mkActiveUser (List.range 1001)))
      = _
    rw [List.drop_zero, ← List.map_take, List.take_range]
    norm_num
  simp only [list_users_execute, h1, h2, get_user_by_id_bigStore,
    count_active_users_bigStore, hpage]
  rw [List.filter_eq_self.mpr (mkActiveUser_all_active _)]
  simp [mkActiveUser, isBlank, strStrip, isSpace]

theorem ne_nil_isEmpty_false (p : Str) (h : p ≠ []) : p.isEmpty = false := by
  cases p with
  | nil => exact absurd rfl h
  | cons _ _ => rfl

/-- C5: creating an identity from a valid (email, password) pair on a store
without that email, then logging in with the same credentials, succeeds; and
verifying the returned token yields the created identity's id as subject.
Randomness (uuid `newId`, bcrypt `salt`), the token secret and the clocks
are explicit; `h7` says verification happens before the token expires. -/
theorem c5_create_then_login_roundtrip (s0 : Store)
    (email password salt newId secret : Str) (ttlMin now1 now2 nowV : Nat)
    (h1 : isBlank email = false) (h2 : isBlank password = false)
    (h3 : is_valid_email email = true) (h4 : is_valid_password password = true)
    (h5 : get_user_by_email s0 email = none)
    (h6 : (36 : Nat) ∉ salt)
    (h7 : nowV < now2 + 60 * ttlMin) :
    ∃ u tok payload,
      create_user_execute s0 email password salt newId now1 =
        (.ok u, s0 ++ [u]) ∧
      u.id = newId ∧ u.is_active = true ∧
      login_execute (s0 ++ [u]) email password secret ttlMin now2 =
        .ok (tok, u) ∧
      verify_token tok secret nowV = some payload ∧
      payload.user_id = some u.id := by
  have hpw_ne : password ≠ [] := is_valid_password_ne_nil password h4
  refine ⟨⟨newId, normalizeEmail email, bhash salt password, true, now1, now1⟩,
    .signed ⟨some newId, normalizeEmail email, now2 + 60 * ttlMin, now2,
      "access"⟩ secret,
    ⟨some newId, normalizeEmail email, now2 + 60 * ttlMin, now2, "access"⟩,
    ?_, rfl, rfl, ?_, ?_, rfl⟩
  · simp [create_user_execute, h1, h2, h3, h4, get_user_by_email_norm, h5,
      hash_password, ne_nil_isEmpty_false password hpw_ne, um_create]
  · have hge : get_user_by_email (s0 ++
        [(⟨newId, normalizeEmail email, bhash salt password, true, now1,
          now1⟩ : User)]) (normalizeEmail email) =
        some ⟨newId, normalizeEmail email, bhash salt password, true, now1,
          now1⟩ := by
      rw [get_user_by_email_norm]
      show List.find? _ _ = _
      rw [List.find?_append]
      have h5' : List.find?
          (fun x : User => x.email == normalizeEmail email) s0 = none := h5
      rw [h5']
      simp
    simp [login_execute, h1, h2, h3, get_user_by_email_norm, hge,
      verify_password_bhash_self password salt hpw_ne h6,
      create_access_token]
  · have hexp : ¬ (now2 + 60 * ttlMin ≤ nowV) := by omega
    simp [verify_token, jwtDecode, hexp]

/-- Witness for C5: email "a@b.co", password "abcdef"-like codepoints,
salt "s", fresh id "9", secret "k". -/
theorem c5_witness :
    ∃ u tok payload,
      create_user_execute [] [97,64,98,46,99,111] [1,2,3,4,5,6] [115] [57] 10
        = (.ok u, [] ++ [u]) ∧
      u.id = [57] ∧ u.is_active = true ∧
      login_execute ([] ++ [u]) [97,64,98,46,99,111] [1,2,3,4,5,6] [107] 30 20
        = .ok (tok, u) ∧
      verify_token tok [107] 25 = some payload ∧
      payload.user_id = some u.id :=
  c5_create_then_login_roundtrip [] [97,64,98,46,99,111] [1,2,3,4,5,6] [115]
    [57] [107] 30 10 20 25 (by decide) (by decide) (by decide) (by decide)
    (by decide) (by decide) (by decide)

/-- When the updated entity's id resolves to a stored document that the
refreshed `updated_at` makes different from the replacement, the
repository update succeeds and replaces that document. -/
theorem um_update_found (s : Store) (uid : Str) (u u2 : User) (nowDb : Nat)
    (hu : get_user_by_id s uid = some u)
    (hid2 : u2.id = uid)
    (hne : u.updated_at ≠ nowDb) :
    um_update s u2 nowDb = (.ok { u2 with updated_at := nowDb },
      replaceFirstById s uid { u2 with updated_at := nowDb }) := by
  have hfind : s.find? (fun x : User => x.id == u2.id) = some u := by
    rw [hid2]; exact hu
  have hneu : ¬ (u = { u2 with updated_at := nowDb }) := by
    intro h
    exact hne (by rw [h])
  unfold um_update
  simp only [hfind]
  rw [if_neg hneu, hid2]

/-- C2: an authorized self-update (target = requester, resolved and
active) carrying a valid new email not used by another id and/or a valid
new password applies each supplied field, refreshes `updated_at` (to the
persist-time clock `nowDb`, past the old value by `htime`), persists once,
and returns the updated identity.  `User.update_email` /
`User.update_password_hash` are spec-modelled (missing from the
`user_entity.py` revision under `src/`). -/
theorem c2_update_applies_fields (s : Store) (uid : Str)
    (newEmail newPassword : Option Str) (salt : Str) (now nowDb : Nat)
    (u : User)
    (hb : isBlank uid = false)
    (hu : get_user_by_id s uid = some u)
    (hact : u.is_active = true)
    (hfields : (truthy newEmail || truthy newPassword) = true)
    (hemail : ∀ e, newEmail = some e → is_valid_email e = true ∧
      ∀ ex, get_user_by_email s e = some ex → ex.id = u.id)
    (hpw : ∀ p, newPassword = some p → is_valid_password p = true)
    (htime : u.updated_at < nowDb) :
    ∃ u', update_user_execute s uid uid newEmail newPassword salt now nowDb =
        (.ok u', replaceFirstById s uid u') ∧
      u'.id = u.id ∧
      (∀ e, newEmail = some e → u'.email = normalizeEmail e) ∧
      (newEmail = none → u'.email = u.email) ∧
      (∀ p, newPassword = some p → u'.password_hash = bhash salt p) ∧
      (newPassword = none → u'.password_hash = u.password_hash) ∧
      u'.updated_at = nowDb ∧ u.updated_at < u'.updated_at := by
  have hid : u.id = uid := by
    have h := List.find?_some (hu : List.find? (fun x => x.id == uid) s = some u)
    simpa using h
  have hne_upd : u.updated_at ≠ nowDb := Nat.ne_of_lt htime
  rcases newEmail with _ | e
  · rcases newPassword with _ | p
    · simp [truthy] at hfields
    · have hvp : is_valid_password p = true := hpw p rfl
      have hpne : p ≠ [] := is_valid_password_ne_nil p hvp
      have hexec : update_user_execute s uid uid none (some p) salt now nowDb
          = um_update s (u.update_password_hash (bhash salt p) now) nowDb := by
        simp [update_user_execute, hb, hu, hact, truthy,
          ne_nil_isEmpty_false p hpne, update_password_step, hvp,
          hash_password]
      refine ⟨{ u.update_password_hash (bhash salt p) now with
        updated_at := nowDb }, ?_, rfl, ?_, fun _ => rfl, ?_, ?_, rfl, htime⟩
      · rw [hexec]
        exact um_update_found s uid u _ nowDb hu
          (by simp [User.update_password_hash, hid]) hne_upd
      · intro e h; cases h
      · intro p' hp'; cases hp'; rfl
      · intro h; cases h
  · obtain ⟨hve, hex⟩ := hemail e rfl
    have hene : e ≠ [] := is_valid_email_ne_nil e hve
    have hestep : update_email_step s u e now =
        .ok (u.update_email (normalizeEmail e) now) := by
      rcases hfind : get_user_by_email s e with _ | ex
      · simp [update_email_step, hve, get_user_by_email_norm, hfind]
      · have hexid : ex.id = u.id := hex ex hfind
        simp [update_email_step, hve, get_user_by_email_norm, hfind, hexid]
    rcases newPassword with _ | p
    · have hexec : update_user_execute s uid uid (some e) none salt now nowDb
          = um_update s (u.update_email (normalizeEmail e) now) nowDb := by
        simp [update_user_execute, hb, hu, hact, truthy,
          ne_nil_isEmpty_false e hene, hestep]
      refine ⟨{ u.update_email (normalizeEmail e) now with
        updated_at := nowDb }, ?_, rfl, ?_, ?_, ?_, fun _ => rfl, rfl, htime⟩
      · rw [hexec]
        exact um_update_found s uid u _ nowDb hu
          (by simp [User.update_email, hid]) hne_upd
      · intro e' he'; cases he'; rfl
      · intro h; cases h
      · intro p' hp'; cases hp'
    · have hvp : is_valid_password p = true := hpw p rfl
      have hpne : p ≠ [] := is_valid_password_ne_nil p hvp
      have hexec : update_user_execute s uid uid (some e) (some p) salt now
            nowDb
          = um_update s ((u.update_email (normalizeEmail e)
              now).update_password_hash (bhash salt p) now) nowDb := by
        simp [update_user_execute, hb, hu, hact, truthy,
          ne_nil_isEmpty_false e hene, ne_nil_isEmpty_false p hpne, hestep,
          update_password_step, hvp, hash_password]
      refine ⟨{ (u.update_email (normalizeEmail e)
          now).update_password_hash (bhash salt p) now with
        updated_at := nowDb }, ?_, rfl, ?_, ?_, ?_, ?_, rfl, htime⟩
      · rw [hexec]
        exact um_update_found s uid u _ nowDb hu
          (by simp [User.update_email, User.update_password_hash, hid])
          hne_upd
      · intro e' he'; cases he'; rfl
      · intro h; cases h
      · intro p' hp'; cases hp'; rfl
      · intro h; cases h

/-- Witness for C2: user "1" updates both email (to "x@y.co") and
password at once. -/
theorem c2_witness :
    ∃ u', update_user_execute [⟨[49], [97,64,98,46,99,111],
        bhash [115] [1,2,3,4,5,6], true, 0, 0⟩] [49] [49]
        (some [120,64,121,46,99,111]) (some [7,8,9,10,11,12]) [115] 5 6 =
      (.ok u', replaceFirstById [⟨[49], [97,64,98,46,99,111],
        bhash [115] [1,2,3,4,5,6], true, 0, 0⟩] [49] u') ∧
      u'.id = [49] ∧
      (∀ e, (some [120,64,121,46,99,111] : Option Str) = some e →
        u'.email = normalizeEmail e) ∧
      ((some [120,64,121,46,99,111] : Option Str) = none →
        u'.email = [97,64,98,46,99,111]) ∧
      (∀ p, (some [7,8,9,10,11,12] : Option Str) = some p →
        u'.password_hash = bhash [115] p) ∧
      ((some [7,8,9,10,11,12] : Option Str) = none →
        u'.password_hash = bhash [115] [1,2,3,4,5,6]) ∧
      u'.updated_at = 6 ∧ (0 : Nat) < u'.updated_at :=
  c2_update_applies_fields [⟨[49], [97,64,98,46,99,111],
      bhash [115] [1,2,3,4,5,6], true, 0, 0⟩] [49]
    (some [120,64,121,46,99,111]) (some [7,8,9,10,11,12]) [115] 5 6
    ⟨[49], [97,64,98,46,99,111], bhash [115] [1,2,3,4,5,6], true, 0, 0⟩
    (by decide) (by decide) (by decide) (by decide)
    (by
      intro e he
      cases he
      refine ⟨by decide, ?_⟩
      intro ex hx
      have hs : (get_user_by_email [⟨[49], [97,64,98,46,99,111],
          bhash [115] [1,2,3,4,5,6], true, 0, 0⟩]
          [120,64,121,46,99,111]).isSome = true := by rw [hx]; rfl
      exact absurd hs (by decide))
    (by intro p hp; cases hp; decide) (by decide)

end UserApi
